import Mathlib

/-!
Shallow embedding of the ndh5 header-only HDF5 wrapper (src/ndh5.hpp).

The wrapper's own logic (type/shape compatibility checks, hyperslab
translation, handle ownership, require_group / require_dataset, file open
modes) is translated directly from the source.  The native HDF5 library is
an external collaborator that is not part of this repository; its calls are
modelled as small pure functions following the specification's description
of the collaborator (file/group/dataset open, create, close, hyperslab
selection, typed read/write).  Exceptions become the Except monad; the
thrown message strings are kept verbatim.
-/

deriving instance DecidableEq for Except

namespace NDH5

/-- Structural descriptor for a native datatype, as produced by the
wrapper's make_datatype_for specialisations (src/ndh5.hpp lines 243-277):
a C string type of a given byte size (H5T_C_S1 resized), the native int
type, or the native double type.  Native H5Tequal is structural equality
of descriptors, which on this closed set is plain equality. -/
inductive H5T where
  | c_s1 (sz : Nat)
  | native_int
  | native_double
deriving DecidableEq

/-- Datatype::size (line 215): byte width of the descriptor, with the
platform widths sizeof(int) = 4 and sizeof(double) = 8. -/
def H5T.size : H5T → Nat
  | H5T.c_s1 n => n
  | H5T.native_int => 4
  | H5T.native_double => 8

/-- Datatype::with_size (line 220): copies the descriptor and applies
H5Tset_size.  The wrapper only ever calls it on a string (H5T_C_S1)
descriptor; on a non-string descriptor the native call fails and, its
return being ignored by the source, the descriptor is left unchanged. -/
def H5T.with_size : H5T → Nat → H5T
  | H5T.c_s1 _, n => H5T.c_s1 n
  | t, _ => t

/-- The in-memory values the wrapper reads and writes through its
non-ndarray overloads: std::string (with its length), char, int, double,
std::vector of int, and std::vector of double (with their lengths). -/
inductive MemValue where
  | strV (len : Nat)
  | charV
  | intV
  | dblV
  | vecIntV (len : Nat)
  | vecDblV (len : Nat)
deriving DecidableEq

/-- detail::make_datatype_for specialisations (lines 243-277): a string
maps to H5Tcopy(H5T_C_S1).with_size(val.size()), char to H5T_C_S1 (whose
default size is 1), int to H5T_NATIVE_INT, double to H5T_NATIVE_DOUBLE,
and a vector to the datatype of a default-constructed element. -/
def make_datatype_for : MemValue → H5T
  | MemValue.strV len => (H5T.c_s1 1).with_size len
  | MemValue.charV => H5T.c_s1 1
  | MemValue.intV => H5T.native_int
  | MemValue.dblV => H5T.native_double
  | MemValue.vecIntV _ => H5T.native_int
  | MemValue.vecDblV _ => H5T.native_double

/-- The extent part of a native dataspace: the H5S_NULL class, the
H5S_SCALAR class, or an H5S_SIMPLE extent with its dimension sizes. -/
inductive Extent where
  | nullE
  | scalarE
  | simpleE (dims : List Nat)
deriving DecidableEq

/-- H5Sget_simple_extent_ndims: 0 for null and scalar extents, the number
of dimensions for a simple extent. -/
def Extent.rank : Extent → Nat
  | Extent.nullE => 0
  | Extent.scalarE => 0
  | Extent.simpleE dims => dims.length

/-- H5Sget_simple_extent_npoints: 0 for a null extent, 1 for a scalar
extent, the product of the dimension sizes for a simple extent. -/
def Extent.npoints : Extent → Nat
  | Extent.nullE => 0
  | Extent.scalarE => 1
  | Extent.simpleE dims => dims.prod

/-- The dimension list of an extent (empty for null and scalar). -/
def Extent.dimsOf : Extent → List Nat
  | Extent.nullE => []
  | Extent.scalarE => []
  | Extent.simpleE dims => dims

/-- The active selection of a native dataspace: everything, nothing, or a
hyperslab given by per-axis start, stride (skips), count, and block. -/
inductive Selection where
  | allS
  | noneS
  | slabS (start skips count block : List Nat)
deriving DecidableEq

/-- H5Sget_select_npoints relative to an extent: the whole extent for the
all-selection, 0 for the empty selection, and per-axis count times block
for a hyperslab. -/
def Selection.npointsIn (ext : Extent) : Selection → Nat
  | Selection.allS => ext.npoints
  | Selection.noneS => 0
  | Selection.slabS _ _ count block => (count.zipWith (fun c b => c * b) block).prod

/-- Model of a native dataspace: an extent together with an active
selection.  A freshly created dataspace selects everything. -/
structure Dataspace where
  ext : Extent
  sel : Selection
deriving DecidableEq

/-- Dataspace::scalar (line 286): H5Screate(H5S_SCALAR). -/
def Dataspace.scalar : Dataspace := ⟨Extent.scalarE, Selection.allS⟩

/-- Dataspace::simple (line 291): H5Screate_simple over the given
dimensions. -/
def Dataspace.simple (dims : List Nat) : Dataspace := ⟨Extent.simpleE dims, Selection.allS⟩

/-- The default Dataspace constructor (line 298): H5Screate(H5S_NULL). -/
def Dataspace.nullSpace : Dataspace := ⟨Extent.nullE, Selection.allS⟩

/-- Dataspace::selection_size (line 369): H5Sget_select_npoints. -/
def Dataspace.selection_size (sp : Dataspace) : Nat := Selection.npointsIn sp.ext sp.sel

/-- Dataspace::operator== (lines 334-337): detail::check(H5Sextent_equal),
which the native library defines as equality of the two extents alone; the
active selections play no part. -/
def dataspace_eq (a b : Dataspace) : Bool := a.ext == b.ext

/-- detail::make_dataspace_for for the non-ndarray overloads (lines
415-425): a scalar value gets Dataspace::scalar(), a vector of length n
gets the one-element initializer-list space, i.e. simple [n]. -/
def make_dataspace_for : MemValue → Dataspace
  | MemValue.strV _ => Dataspace.scalar
  | MemValue.charV => Dataspace.scalar
  | MemValue.intV => Dataspace.scalar
  | MemValue.dblV => Dataspace.scalar
  | MemValue.vecIntV len => Dataspace.simple [len]
  | MemValue.vecDblV len => Dataspace.simple [len]

/-- detail::hyperslab (lines 51-90): the wrapper's per-axis translation of
an nd::selector — start offsets, skips (strides), counts (the selector's
shape), and unit blocks. -/
structure Hyperslab where
  start : List Nat
  count : List Nat
  skips : List Nat
  block : List Nat
deriving DecidableEq

/-- hyperslab::check_valid (lines 65-74): the wrapper's only explicit
selection check; it throws "inconsistent selection sizes" when any of the
four per-axis lists does not have exactly rank entries. -/
def Hyperslab.check_valid (h : Hyperslab) (rank : Nat) : Except String Unit :=
  if h.start.length ≠ rank ∨ h.skips.length ≠ rank ∨ h.count.length ≠ rank ∨ h.block.length ≠ rank
  then Except.error "inconsistent selection sizes"
  else Except.ok ()

/-- One axis of the native hyperslab bound check: an axis fits when it
selects nothing or its last selected index start + (count-1)*skip +
(block-1) lies below the dimension size. -/
def axisWithin (dim start skip cnt blk : Nat) : Bool :=
  cnt == 0 || blk == 0 || decide (start + (cnt - 1) * skip + (blk - 1) < dim)

/-- All axes of the native hyperslab bound check; false when the list
lengths disagree. -/
def slabWithin : List Nat → List Nat → List Nat → List Nat → List Nat → Bool
  | d :: ds, s :: ss, k :: ks, c :: cs, b :: bs =>
      axisWithin d s k c b && slabWithin ds ss ks cs bs
  | [], [], [], [], [] => true
  | _, _, _, _, _ => false

/-- Model of the external native call H5Sselect_hyperslab, following the
specification of the collaborator: it narrows the active selection of a
simple dataspace to the requested hyperslab, and fails when the hyperslab
does not lie inside the extent (the spec's dataspace invariant is that a
selection is always a sub-region of the extent, and its test scenarios
require out-of-extent selections to fail). -/
def h5s_select_hyperslab (sp : Dataspace) (h : Hyperslab) : Except String Dataspace :=
  match sp.ext with
  | Extent.simpleE dims =>
      if slabWithin dims h.start h.skips h.count h.block
      then Except.ok ⟨sp.ext, Selection.slabS h.start h.skips h.count h.block⟩
      else Except.error "H5Sselect_hyperslab failed: selection exceeds extent"
  | _ => Except.error "H5Sselect_hyperslab failed: not a simple dataspace"

/-- hyperslab::select (lines 76-84): check_valid against the dataspace
rank (H5Sget_simple_extent_ndims), then the checked native
H5Sselect_hyperslab call. -/
def Hyperslab.select (h : Hyperslab) (sp : Dataspace) : Except String Dataspace := do
  h.check_valid sp.ext.rank
  h5s_select_hyperslab sp h

/-- The Dataspace(nd::selector) constructor (lines 303-310): the selector,
whose count field has been overwritten by nd::with_count with the
dataset's extent, supplies the dimensions of a fresh simple dataspace; the
hyperslab translated from the selector is then selected on it. -/
def dataspace_of_selector (dims : List Nat) (h : Hyperslab) : Except String Dataspace :=
  Hyperslab.select h (Dataspace.simple dims)

/-- The on-disk state of a dataset object: the datatype and the extent it
was created with, both immutable thereafter. -/
structure DsetObj where
  dtype : H5T
  dext : Extent
deriving DecidableEq

/-- Dataset::get_type (line 670): detail::check(H5Dget_type). -/
def DsetObj.get_type (d : DsetObj) : H5T := d.dtype

/-- Dataset::get_space (line 665): detail::check(H5Dget_space); the
returned dataspace carries the dataset's full extent with everything
selected. -/
def DsetObj.get_space (d : DsetObj) : Dataspace := ⟨d.dext, Selection.allS⟩

/-- The target types a caller can request from Dataset::read. -/
inductive TargetType where
  | tString
  | tChar
  | tInt
  | tDbl
  | tVecInt
  | tVecDbl
deriving DecidableEq

/-- detail::prepare (lines 441-457): sizes the destination before a read.
The generic overload leaves a scalar value alone; the std::string overload
resizes the string to the on-disk type's byte size; the std::vector
overload resizes the vector to the file dataspace's selection size. -/
def prepare (dtype : H5T) (fspace : Dataspace) : TargetType → MemValue
  | TargetType.tString => MemValue.strV dtype.size
  | TargetType.tChar => MemValue.charV
  | TargetType.tInt => MemValue.intV
  | TargetType.tDbl => MemValue.dblV
  | TargetType.tVecInt => MemValue.vecIntV fspace.selection_size
  | TargetType.tVecDbl => MemValue.vecDblV fspace.selection_size

/-- A native data-transfer call actually issued by the wrapper, with the
in-memory datatype and the memory and file dataspaces it was given. -/
inductive Event where
  | dwrite (memType : H5T) (mspace fspace : Dataspace)
  | dread (memType : H5T) (mspace fspace : Dataspace)
deriving DecidableEq

/-- The in-memory datatype an issued transfer call was given. -/
def Event.memType : Event → H5T
  | Event.dwrite t _ _ => t
  | Event.dread t _ _ => t

/-- The message of the wrapper's datatype-compatibility failure. -/
def typeMismatchMsg : String := "source and target have different data types"

/-- Dataset::check_compatible (lines 728-735): compares the in-memory
datatype against get_type() and throws on structural inequality. -/
def check_compatible (d : DsetObj) (t : H5T) : Except String H5T :=
  if t ≠ d.get_type then Except.error typeMismatchMsg
  else Except.ok t

/-- Model of the external native call H5Dwrite, following the
specification of the collaborator: the transfer requires the file
dataspace to describe the dataset's extent and the memory and file
selections to contain the same number of elements; the spec's scenarios
require writing a 3-element sequence into a 4-element dataset to fail. -/
def h5d_write (d : DsetObj) (mspace fspace : Dataspace) : Except String Unit :=
  if fspace.ext ≠ d.dext
  then Except.error "H5Dwrite failed: file dataspace does not match dataset"
  else if mspace.selection_size ≠ fspace.selection_size
  then Except.error "H5Dwrite failed: src and dest dataspaces have different number of elements"
  else Except.ok ()

/-- Model of the external native call H5Dread, symmetric to h5d_write. -/
def h5d_read (d : DsetObj) (mspace fspace : Dataspace) : Except String Unit :=
  if fspace.ext ≠ d.dext
  then Except.error "H5Dread failed: file dataspace does not match dataset"
  else if mspace.selection_size ≠ fspace.selection_size
  then Except.error "H5Dread failed: src and dest dataspaces have different number of elements"
  else Except.ok ()

/-- Dataset::write(value, fspace) (lines 689-697): build the in-memory
datatype and dataspace, run check_compatible, and only then issue the
native H5Dwrite.  The first component records the native transfer calls
issued; on a compatibility failure it is empty. -/
def Dataset.write (d : DsetObj) (v : MemValue) (fspace : Dataspace) :
    List Event × Except String Unit :=
  let type := make_datatype_for v
  let mspace := make_dataspace_for v
  match check_compatible d type with
  | Except.error e => ([], Except.error e)
  | Except.ok t => ([Event.dwrite t mspace fspace], h5d_write d mspace fspace)

/-- Dataset::write(value) (lines 675-679): write against the dataset's
full space. -/
def Dataset.writeFull (d : DsetObj) (v : MemValue) : List Event × Except String Unit :=
  Dataset.write d v d.get_space

/-- Dataset::read<T>(fspace) (lines 713-724): default-construct the
value, prepare it from get_type() and the file dataspace, build the
in-memory datatype and dataspace, run check_compatible, and only then
issue the native H5Dread. -/
def Dataset.read (d : DsetObj) (t : TargetType) (fspace : Dataspace) :
    List Event × Except String MemValue :=
  let value := prepare d.get_type fspace t
  let type := make_datatype_for value
  let mspace := make_dataspace_for value
  match check_compatible d type with
  | Except.error e => ([], Except.error e)
  | Except.ok ty =>
      match h5d_read d mspace fspace with
      | Except.error e => ([Event.dread ty mspace fspace], Except.error e)
      | Except.ok _ => ([Event.dread ty mspace fspace], Except.ok value)

/-- Dataset::read<T>(selector) (lines 705-711): the dataset's extent and
the selector's hyperslab build the file dataspace before any transfer; a
failure there aborts the read with no native read issued. -/
def Dataset.readSel (d : DsetObj) (t : TargetType) (h : Hyperslab) :
    List Event × Except String MemValue :=
  match dataspace_of_selector d.dext.dimsOf h with
  | Except.error e => ([], Except.error e)
  | Except.ok fsp => Dataset.read d t fsp

/-- Dataset::read<T>() (lines 699-703): read against the dataset's full
space. -/
def Dataset.readFull (d : DsetObj) (t : TargetType) : List Event × Except String MemValue :=
  Dataset.read d t d.get_space

/-- The object kinds of enum class Object (line 22). -/
inductive Object where
  | file
  | group
  | dataset
deriving DecidableEq

/-- h5::Link (lines 484-630): a move-only wrapper holding one native
object identifier, with -1 as the invalid sentinel. -/
structure Link where
  id : Int
deriving DecidableEq

/-- One native release actually performed: the identifier and the kind of
close call (H5Fclose / H5Gclose / H5Dclose) used. -/
structure CloseEvent where
  cid : Int
  kind : Object
deriving DecidableEq

/-- Link move constructor (lines 492-496): the new link takes the id, the
source is left with the invalid sentinel.  The pair is (constructed link,
source after the move). -/
def Link.moveFrom (other : Link) : Link × Link := (⟨other.id⟩, ⟨-1⟩)

/-- Link move assignment (lines 500-505): id = other.id; other.id = -1.
The target's previous id is overwritten without being closed — the source
contains no close() of the current id — so the pair is (target after,
source after) and the first argument's held id is dropped. -/
def Link.moveAssign (_target : Link) (other : Link) : Link × Link := (⟨other.id⟩, ⟨-1⟩)

/-- Link::close (lines 507-519): when the id is not the invalid sentinel,
perform the kind-appropriate native close (recorded in the trace, its
return value ignored by the source) and set the id to -1; otherwise do
nothing. -/
def Link.close (l : Link) (obj : Object) (tr : List CloseEvent) : Link × List CloseEvent :=
  if l.id ≠ -1 then (⟨-1⟩, tr ++ [⟨l.id, obj⟩]) else (l, tr)

/-- How many times a given identifier was released in a trace. -/
def releasesOf (tr : List CloseEvent) (i : Int) : Nat :=
  (tr.filter (fun e => e.cid == i)).length

/-- The move-assignment scenario: link a owns id 5, link b owns id 7,
then a = std::move(b) and both links are destroyed (each destruction runs
Link::close).  The result pairs the two final links with the trace of
native releases performed. -/
def c2FinalState : (Link × Link) × List CloseEvent :=
  let a : Link := ⟨5⟩
  let b : Link := ⟨7⟩
  let ab := Link.moveAssign a b
  let r1 := Link.close ab.2 Object.file []
  let r2 := Link.close ab.1 Object.file r1.2
  ((r2.1, r1.1), r2.2)

/-- A named child of a location: a group or a dataset with its on-disk
datatype and extent. -/
inductive Entry where
  | groupE
  | dsetE (dtype : H5T) (dext : Extent)
deriving DecidableEq

/-- The named children of a native location, in creation order. -/
abbrev Children := List (String × Entry)

/-- Name lookup in an association list keyed by strings. -/
def alistFind {β : Type} : List (String × β) → String → Option β
  | [], _ => none
  | (k, v) :: rest, name => if k = name then some v else alistFind rest name

/-- Rebind a name in an association list, appending when absent. -/
def alistSet {β : Type} : List (String × β) → String → β → List (String × β)
  | [], name, v => [(name, v)]
  | (k, w) :: rest, name, v =>
      if k = name then (k, v) :: rest else (k, w) :: alistSet rest name v

/-- A location as seen through its owning link: the link's id (-1 when
closed) and the children of the native object it refers to. -/
structure Loc where
  lid : Int
  children : Children
deriving DecidableEq

/-- Link::contains (lines 529-544): H5Lexists, then the object type from
H5Oget_info_by_name; Object::file never matches a child; on a closed
location H5Lexists reports failure, which the source's plain if treats as
false. -/
def Loc.containsObj (loc : Loc) (name : String) (obj : Object) : Bool :=
  if loc.lid = -1 then false
  else
    match alistFind loc.children name with
    | none => false
    | some e =>
        match obj, e with
        | Object.file, _ => false
        | Object.group, Entry.groupE => true
        | Object.group, Entry.dsetE _ _ => false
        | Object.dataset, Entry.dsetE _ _ => true
        | Object.dataset, Entry.groupE => false

/-- Link::open_group (lines 546-550): detail::check(H5Gopen).  The native
call fails on an invalid location id or when the name is not a group; the
opened handle refers to the underlying group object, identified here by
its name within the location. -/
def Loc.open_group (loc : Loc) (name : String) : Except String String :=
  if loc.lid = -1 then Except.error "H5Gopen failed: invalid location identifier"
  else
    match alistFind loc.children name with
    | some Entry.groupE => Except.ok name
    | _ => Except.error "H5Gopen failed: no such group"

/-- Link::create_group (lines 552-556): detail::check(H5Gcreate).  The
native call fails on an invalid location id or when the name is already
bound, and otherwise adds an empty group of that name. -/
def Loc.create_group (loc : Loc) (name : String) : Except String (String × Loc) :=
  if loc.lid = -1 then Except.error "H5Gcreate failed: invalid location identifier"
  else
    match alistFind loc.children name with
    | some _ => Except.error "H5Gcreate failed: name already exists"
    | none => Except.ok (name, ⟨loc.lid, loc.children ++ [(name, Entry.groupE)]⟩)

/-- Link::open_dataset (lines 558-562): detail::check(H5Dopen); fails on
an invalid location id or when the name is not a dataset. -/
def Loc.open_dataset (loc : Loc) (name : String) : Except String DsetObj :=
  if loc.lid = -1 then Except.error "H5Dopen failed: invalid location identifier"
  else
    match alistFind loc.children name with
    | some (Entry.dsetE t e) => Except.ok ⟨t, e⟩
    | _ => Except.error "H5Dopen failed: not a dataset"

/-- Link::create_dataset (lines 564-576): detail::check(H5Dcreate) with
the requested datatype and dataspace; the native call fails on an invalid
location id or when the name is already bound, and otherwise creates a
dataset whose on-disk type is the requested type and whose on-disk space
is the requested space's extent. -/
def Loc.create_dataset (loc : Loc) (name : String) (t : H5T) (s : Dataspace) :
    Except String (DsetObj × Loc) :=
  if loc.lid = -1 then Except.error "H5Dcreate failed: invalid location identifier"
  else
    match alistFind loc.children name with
    | some _ => Except.error "H5Dcreate failed: name already exists"
    | none =>
        Except.ok (⟨t, s.ext⟩, ⟨loc.lid, loc.children ++ [(name, Entry.dsetE t s.ext)]⟩)

/-- Location::require_group (lines 799-806): open the group when contains
reports one, otherwise create it. -/
def Loc.require_group (loc : Loc) (name : String) : Except String (String × Loc) :=
  if loc.containsObj name Object.group then
    (loc.open_group name).map (fun g => (g, loc))
  else loc.create_group name

/-- The message of require_dataset's compatibility failure. -/
def requireDsetMsg : String := "data set with different type or space already exists"

/-- Location::require_dataset (lines 813-830): when contains reports a
dataset of that name, open it and return it if its on-disk type and space
equal the requested ones (Datatype::operator== and Dataspace::operator==),
else throw; when no dataset of that name exists, create one. -/
def Loc.require_dataset (loc : Loc) (name : String) (t : H5T) (s : Dataspace) :
    Except String (DsetObj × Loc) :=
  if loc.containsObj name Object.dataset then
    match loc.open_dataset name with
    | Except.error e => Except.error e
    | Except.ok d =>
        if d.get_type == t && dataspace_eq d.get_space s
        then Except.ok (d, loc)
        else Except.error requireDsetMsg
  else loc.create_dataset name t s

/-- The wrapper's Intent enumeration (line 21). -/
inductive Intent where
  | rdwr
  | rdonly
  | swmr_write
  | swmr_read
deriving DecidableEq

/-- The native access-intent values H5Fget_intent can report
(H5F_ACC_RDWR, H5F_ACC_RDONLY, H5F_ACC_SWMR_WRITE, H5F_ACC_SWMR_READ). -/
inductive NativeIntent where
  | acc_rdwr
  | acc_rdonly
  | acc_swmr_write
  | acc_swmr_read
deriving DecidableEq

/-- An open file handle: its owning link and the access intent the native
library records for it. -/
structure FileH where
  link : Link
  nativeIntent : NativeIntent
deriving DecidableEq

/-- The modelled filesystem: the HDF5 files that exist, each with the
children of its root group. -/
abbrev FS := List (String × Children)

/-- Model of the external native call H5Fis_hdf5: positive when the path
names an existing HDF5 file, negative otherwise. -/
def h5f_is_hdf5 (fs : FS) (filename : String) : Int :=
  match alistFind fs filename with
  | some _ => 1
  | none => -1

/-- File::exists (lines 917-920): H5Fis_hdf5(filename) > 0. -/
def fileExistsQ (fs : FS) (filename : String) : Bool :=
  h5f_is_hdf5 fs filename > 0

/-- Model of the external native call H5Fopen (both H5F_ACC_RDONLY and
H5F_ACC_RDWR): succeeds with a fresh id exactly when the file exists. -/
def h5f_open (fs : FS) (filename : String) (fresh : Int) : Except String Int :=
  if (alistFind fs filename).isSome then Except.ok fresh
  else Except.error "H5Fopen failed: unable to open file"

/-- The File(filename, mode) constructor (lines 924-942): mode "r" opens
read-only, "r+" opens read-write, "w" creates with truncation (always
succeeding and leaving the file empty), and any other mode throws.  The
result carries the file handle and the filesystem afterwards. -/
def mkFile (fs : FS) (filename mode : String) (fresh : Int) : Except String (FileH × FS) :=
  if mode = "r" then
    (h5f_open fs filename fresh).map (fun i => (⟨⟨i⟩, NativeIntent.acc_rdonly⟩, fs))
  else if mode = "r+" then
    (h5f_open fs filename fresh).map (fun i => (⟨⟨i⟩, NativeIntent.acc_rdwr⟩, fs))
  else if mode = "w" then
    Except.ok (⟨⟨fresh⟩, NativeIntent.acc_rdwr⟩, alistSet fs filename [])
  else Except.error "File mode must be r, r+, or w"

/-- File::close (lines 962-965): link.close(Object::file). -/
def FileH.close (f : FileH) (tr : List CloseEvent) : FileH × List CloseEvent :=
  let r := Link.close f.link Object.file tr
  ({ f with link := r.1 }, r.2)

/-- File::intent (lines 967-978): detail::check(H5Fget_intent), then the
two uncommented cases return Intent::rdwr and Intent::rdonly; the
swmr_write and swmr_read cases are commented out in the source, so any
other native intent falls through to a bare throw statement, which with no
active exception terminates the program. -/
def FileH.intent (f : FileH) : Except String Intent :=
  if f.link.id = -1 then Except.error "H5Fget_intent failed"
  else
    match f.nativeIntent with
    | NativeIntent.acc_rdwr => Except.ok Intent.rdwr
    | NativeIntent.acc_rdonly => Except.ok Intent.rdonly
    | _ => Except.error "terminate: bare throw with no active exception"

/-- Whether an Except result is a success. -/
def exceptIsOk {α : Type} : Except String α → Bool
  | Except.ok _ => true
  | Except.error _ => false

/-- A native call a wrapper member issues, with whether the source routes
its return value through detail::check. -/
structure NCall where
  fn : String
  routed : Bool
deriving DecidableEq

/-- The native close function Link::close dispatches to per object kind. -/
def closeFnName : Object → String
  | Object.file => "H5Fclose"
  | Object.group => "H5Gclose"
  | Object.dataset => "H5Dclose"

/-- The native calls Link::close issues (lines 507-519): one bare
H5Fclose / H5Gclose / H5Dclose — not wrapped in detail::check — when the
id is valid, none otherwise. -/
def closeCalls (l : Link) (obj : Object) : List NCall :=
  if l.id ≠ -1 then [⟨closeFnName obj, false⟩] else []

/-- The native calls Link::size issues (lines 521-527): one bare
H5Literate, not wrapped in detail::check. -/
def sizeCalls : List NCall := [⟨"H5Literate", false⟩]

/-- The native calls Link::open_group issues (lines 546-550): one H5Gopen
wrapped in detail::check. -/
def openGroupCalls : List NCall := [⟨"H5Gopen", true⟩]

/-- Whether every native call of a trace is routed through
detail::check. -/
def allRouted (cs : List NCall) : Bool := cs.all (fun c => c.routed)

/-- detail::check (lines 101-115): a negative native return value raises
a failure carrying the most recent native diagnostic description; any
other value passes through unchanged. -/
def check (result : Int) (lastErrorDesc : String) : Except String Int :=
  if result < 0 then Except.error lastErrorDesc else Except.ok result

theorem alistFind_append_of_none {β : Type} (l t : List (String × β)) (name : String)
    (h : alistFind l name = none) : alistFind (l ++ t) name = alistFind t name := by
  induction l with
  | nil => rfl
  | cons p rest ih =>
    cases p with
    | mk k v =>
      by_cases hk : k = name
      · simp [alistFind, hk] at h
      · simp only [alistFind, hk, if_false, List.cons_append, if_neg] at h ⊢
        exact ih h

theorem alistFind_alistSet {β : Type} (l : List (String × β)) (name : String) (v : β) :
    alistFind (alistSet l name v) name = some v := by
  induction l with
  | nil => simp [alistSet, alistFind]
  | cons p rest ih =>
    cases p with
    | mk k w =>
      by_cases hk : k = name
      · simp [alistSet, alistFind, hk]
      · simp [alistSet, alistFind, hk, ih]

theorem h5d_write_ne_typeMsg (d : DsetObj) (m f : Dataspace) :
    h5d_write d m f ≠ Except.error typeMismatchMsg := by
  unfold h5d_write
  split
  · intro hc
    injection hc with h1
    revert h1
    decide
  · split
    · intro hc
      injection hc with h1
      revert h1
      decide
    · intro hc
      exact Except.noConfusion hc

theorem h5d_read_ne_typeMsg (d : DsetObj) (m f : Dataspace) :
    h5d_read d m f ≠ Except.error typeMismatchMsg := by
  unfold h5d_read
  split
  · intro hc
    injection hc with h1
    revert h1
    decide
  · split
    · intro hc
      injection hc with h1
      revert h1
      decide
    · intro hc
      exact Except.noConfusion hc

/-- C1: For every Dataset::write and Dataset::read call, the Datatype
implied by the in-memory value is compared for structural equality against
the dataset's on-disk Datatype (get_type()); if they differ the call
throws "source and target have different data types" before the native
read/write call is issued (the event trace stays empty), and no implicit
coercion is ever performed — every native transfer actually issued carries
an in-memory datatype exactly equal to the on-disk datatype, in particular
never an int against a double; if they are equal, no such error is
raised. -/
theorem c1_read_write_type_check (d : DsetObj) (v : MemValue) (t : TargetType)
    (fsp : Dataspace) :
    ((Dataset.write d v fsp).2 = Except.error typeMismatchMsg ↔
        make_datatype_for v ≠ d.get_type)
    ∧ (make_datatype_for v ≠ d.get_type → (Dataset.write d v fsp).1 = [])
    ∧ (∀ ev ∈ (Dataset.write d v fsp).1, ev.memType = d.get_type)
    ∧ ((Dataset.read d t fsp).2 = Except.error typeMismatchMsg ↔
        make_datatype_for (prepare d.get_type fsp t) ≠ d.get_type)
    ∧ (make_datatype_for (prepare d.get_type fsp t) ≠ d.get_type →
        (Dataset.read d t fsp).1 = [])
    ∧ (∀ ev ∈ (Dataset.read d t fsp).1, ev.memType = d.get_type) := by
  by_cases hw : make_datatype_for v = d.get_type
  · by_cases hr : make_datatype_for (prepare d.get_type fsp t) = d.get_type
    · refine ⟨?_, fun hc => absurd hw hc, ?_, ?_, fun hc => absurd hr hc, ?_⟩
      · simp only [Dataset.write, check_compatible, hw, ite_not, if_pos]
        simp only [ne_eq, hw, not_true_eq_false, iff_false]
        exact h5d_write_ne_typeMsg d (make_dataspace_for v) fsp
      · intro ev hev
        simp only [Dataset.write, check_compatible, hw, ite_not, if_pos] at hev
        simp only [List.mem_singleton] at hev
        subst hev
        simp [Event.memType, hw]
      · simp only [Dataset.read, check_compatible, hr, ite_not, if_pos]
        simp only [ne_eq, hr, not_true_eq_false, iff_false]
        rcases hh : h5d_read d (make_dataspace_for (prepare d.get_type fsp t)) fsp with e | u
        · intro hc
          injection hc with h1
          exact h5d_read_ne_typeMsg d (make_dataspace_for (prepare d.get_type fsp t)) fsp (hh.trans (by rw [h1]))
        · simp
      · intro ev hev
        simp only [Dataset.read, check_compatible, hr, ite_not, if_pos] at hev
        rcases hh : h5d_read d (make_dataspace_for (prepare d.get_type fsp t)) fsp with e | u <;>
          rw [hh] at hev <;> simp only [List.mem_singleton] at hev <;> subst hev <;>
          simp [Event.memType, hr]
    · refine ⟨?_, fun hc => absurd hw hc, ?_, ?_, ?_, ?_⟩
      · simp only [Dataset.write, check_compatible, hw, ite_not, if_pos]
        simp only [ne_eq, hw, not_true_eq_false, iff_false]
        exact h5d_write_ne_typeMsg d (make_dataspace_for v) fsp
      · intro ev hev
        simp only [Dataset.write, check_compatible, hw, ite_not, if_pos] at hev
        simp only [List.mem_singleton] at hev
        subst hev
        simp [Event.memType, hw]
      · simp [Dataset.read, check_compatible, hr]
      · intro _
        simp [Dataset.read, check_compatible, hr]
      · intro ev hev
        simp [Dataset.read, check_compatible, hr] at hev
  · by_cases hr : make_datatype_for (prepare d.get_type fsp t) = d.get_type
    · refine ⟨?_, ?_, ?_, ?_, fun hc => absurd hr hc, ?_⟩
      · simp [Dataset.write, check_compatible, hw]
      · intro _
        simp [Dataset.write, check_compatible, hw]
      · intro ev hev
        simp [Dataset.write, check_compatible, hw] at hev
      · simp only [Dataset.read, check_compatible, hr, ite_not, if_pos]
        simp only [ne_eq, hr, not_true_eq_false, iff_false]
        rcases hh : h5d_read d (make_dataspace_for (prepare d.get_type fsp t)) fsp with e | u
        · intro hc
          injection hc with h1
          exact h5d_read_ne_typeMsg d (make_dataspace_for (prepare d.get_type fsp t)) fsp (hh.trans (by rw [h1]))
        · simp
      · intro ev hev
        simp only [Dataset.read, check_compatible, hr, ite_not, if_pos] at hev
        rcases hh : h5d_read d (make_dataspace_for (prepare d.get_type fsp t)) fsp with e | u <;>
          rw [hh] at hev <;> simp only [List.mem_singleton] at hev <;> subst hev <;>
          simp [Event.memType, hr]
    · refine ⟨?_, ?_, ?_, ?_, ?_, ?_⟩
      · simp [Dataset.write, check_compatible, hw]
      · intro _
        simp [Dataset.write, check_compatible, hw]
      · intro ev hev
        simp [Dataset.write, check_compatible, hw] at hev
      · simp [Dataset.read, check_compatible, hr]
      · intro _
        simp [Dataset.read, check_compatible, hr]
      · intro ev hev
        simp [Dataset.read, check_compatible, hr] at hev

/-- Witness for c1_read_write_type_check: on a 4-element int dataset,
writing a 4-element double vector raises the type-mismatch error with no
native write issued, reading a double vector raises it too, and a write of
a matching int vector issues its native transfer with exactly the on-disk
datatype. -/
theorem c1_witness :
    (Dataset.write ⟨H5T.native_int, Extent.simpleE [4]⟩ (MemValue.vecDblV 4)
        (Dataspace.simple [4])).2 = Except.error typeMismatchMsg
    ∧ (Dataset.write ⟨H5T.native_int, Extent.simpleE [4]⟩ (MemValue.vecDblV 4)
        (Dataspace.simple [4])).1 = []
    ∧ (Dataset.read ⟨H5T.native_int, Extent.simpleE [4]⟩ TargetType.tVecDbl
        (Dataspace.simple [4])).2 = Except.error typeMismatchMsg
    ∧ (Event.dwrite H5T.native_int (Dataspace.simple [4]) (Dataspace.simple [4])).memType
        = DsetObj.get_type ⟨H5T.native_int, Extent.simpleE [4]⟩ := by
  have h := c1_read_write_type_check ⟨H5T.native_int, Extent.simpleE [4]⟩ (MemValue.vecDblV 4)
      TargetType.tVecDbl (Dataspace.simple [4])
  have h2 := c1_read_write_type_check ⟨H5T.native_int, Extent.simpleE [4]⟩ (MemValue.vecIntV 4)
      TargetType.tVecInt (Dataspace.simple [4])
  exact ⟨h.1.mpr (by decide), h.2.1 (by decide), h.2.2.2.1.mpr (by decide),
    h2.2.2.1 _ (by decide)⟩

/-- C2 failing scenario: link a owns native id 5 and link b owns native
id 7; after a = std::move(b) and the destruction of both links, id 7 is
released exactly once and the moved-from link carries the sentinel -1 —
but id 5, which link a owned, is released zero times, because Link's move
assignment overwrites the held id without closing it.  The claim's
release-on-exactly-one-path invariant fails on this trace. -/
theorem c2_move_assign_leak :
    releasesOf c2FinalState.2 5 = 0
    ∧ releasesOf c2FinalState.2 7 = 1
    ∧ (Link.moveAssign ⟨5⟩ ⟨7⟩).2.id = -1
    ∧ (Link.moveFrom ⟨7⟩).2.id = -1 := by decide

/-- Counterexample to C3 as stated: the hyperslab start=[2], count=[3],
stride=[2] on a 1-D extent of 5 (the spec's out-of-bounds scenario) passes
the wrapper's only explicit selection check, check_valid, because its rank
matches — so no wrapper-side size check rejects it; the rejection instead
comes from the error-checked native H5Sselect_hyperslab call, though still
before any native read is issued. -/
theorem c3_counterexample :
    Hyperslab.check_valid ⟨[2], [3], [2], [1]⟩ (Dataspace.simple [5]).ext.rank = Except.ok ()
    ∧ Hyperslab.select ⟨[2], [3], [2], [1]⟩ (Dataspace.simple [5])
        = Except.error "H5Sselect_hyperslab failed: selection exceeds extent"
    ∧ Dataset.readSel ⟨H5T.native_double, Extent.simpleE [5]⟩ TargetType.tVecDbl
        ⟨[2], [3], [2], [1]⟩
        = ([], Except.error "H5Sselect_hyperslab failed: selection exceeds extent") := by
  decide

/-- C3 amended: a selection whose per-axis lists do not match the
dataspace rank is rejected by the wrapper's explicit check_valid check
with "inconsistent selection sizes"; an out-of-bounds selection of
matching rank is rejected by the error-checked native hyperslab-selection
call; an in-bounds selection of matching rank is accepted with exactly the
requested hyperslab as the active selection (never clamped); and any
selection failure aborts a selected read before a native read call is
issued (the event trace stays empty). -/
theorem c3_selection_checks (dims : List Nat) (h : Hyperslab) (d : DsetObj) (t : TargetType) :
    (¬(h.start.length = dims.length ∧ h.skips.length = dims.length
        ∧ h.count.length = dims.length ∧ h.block.length = dims.length) →
      Hyperslab.select h (Dataspace.simple dims) = Except.error "inconsistent selection sizes")
    ∧ (h.start.length = dims.length → h.skips.length = dims.length →
        h.count.length = dims.length → h.block.length = dims.length →
        slabWithin dims h.start h.skips h.count h.block = false →
        Hyperslab.select h (Dataspace.simple dims)
          = Except.error "H5Sselect_hyperslab failed: selection exceeds extent")
    ∧ (h.start.length = dims.length → h.skips.length = dims.length →
        h.count.length = dims.length → h.block.length = dims.length →
        slabWithin dims h.start h.skips h.count h.block = true →
        Hyperslab.select h (Dataspace.simple dims)
          = Except.ok ⟨Extent.simpleE dims, Selection.slabS h.start h.skips h.count h.block⟩)
    ∧ (∀ e, dataspace_of_selector d.dext.dimsOf h = Except.error e →
        Dataset.readSel d t h = ([], Except.error e)) := by
  refine ⟨?_, ?_, ?_, ?_⟩
  · intro hnc
    have hc : h.start.length ≠ dims.length ∨ h.skips.length ≠ dims.length
        ∨ h.count.length ≠ dims.length ∨ h.block.length ≠ dims.length := by tauto
    simp only [Hyperslab.select, Hyperslab.check_valid, Dataspace.simple, Extent.rank]
    rw [if_pos hc]
    rfl
  · intro h1 h2 h3 h4 hs
    simp only [Hyperslab.select, Hyperslab.check_valid, Dataspace.simple, Extent.rank]
    rw [if_neg (by tauto)]
    show h5s_select_hyperslab (Dataspace.simple dims) h = _
    simp [h5s_select_hyperslab, hs, Dataspace.simple]
  · intro h1 h2 h3 h4 hs
    simp only [Hyperslab.select, Hyperslab.check_valid, Dataspace.simple, Extent.rank]
    rw [if_neg (by tauto)]
    show h5s_select_hyperslab (Dataspace.simple dims) h = _
    simp [h5s_select_hyperslab, hs, Dataspace.simple]
  · intro e he
    simp [Dataset.readSel, he]

/-- Witness for c3_selection_checks: on a 1-D extent of 5, the in-bounds
slab start=[0], count=[2], stride=[1] is accepted verbatim; a rank-2 slab
is rejected by the wrapper's rank check, and a selected read with it
issues no native read. -/
theorem c3_witness :
    Hyperslab.select ⟨[0], [2], [1], [1]⟩ (Dataspace.simple [5])
      = Except.ok ⟨Extent.simpleE [5], Selection.slabS [0] [1] [2] [1]⟩
    ∧ Hyperslab.select ⟨[0, 0], [2, 2], [1, 1], [1, 1]⟩ (Dataspace.simple [5])
      = Except.error "inconsistent selection sizes"
    ∧ Dataset.readSel ⟨H5T.native_double, Extent.simpleE [5]⟩ TargetType.tVecDbl
        ⟨[0, 0], [2, 2], [1, 1], [1, 1]⟩
      = ([], Except.error "inconsistent selection sizes") := by
  have h1 := c3_selection_checks [5] ⟨[0], [2], [1], [1]⟩
      ⟨H5T.native_double, Extent.simpleE [5]⟩ TargetType.tVecDbl
  have h2 := c3_selection_checks [5] ⟨[0, 0], [2, 2], [1, 1], [1, 1]⟩
      ⟨H5T.native_double, Extent.simpleE [5]⟩ TargetType.tVecDbl
  refine ⟨h1.2.2.1 rfl rfl rfl rfl (by decide), h2.1 (by decide), ?_⟩
  exact h2.2.2.2 "inconsistent selection sizes" (h2.1 (by decide))

/-- C4: require_dataset returns the existing dataset when one of that
name exists with equal on-disk type and space (Datatype equality is
structural, Dataspace equality compares extents); throws "data set with
different type or space already exists" when the existing dataset's type
or space differs; and creates a fresh dataset when the name is unbound —
so a second call with identical type and space succeeds and a second call
with a different type or space fails. -/
theorem c4_require_dataset (loc : Loc) (name : String) (t : H5T) (s : Dataspace)
    (hopen : loc.lid ≠ -1) :
    (∀ t0 e0, alistFind loc.children name = some (Entry.dsetE t0 e0) →
      ((t0 = t ∧ e0 = s.ext) → Loc.require_dataset loc name t s = Except.ok (⟨t0, e0⟩, loc))
      ∧ (¬(t0 = t ∧ e0 = s.ext) →
          Loc.require_dataset loc name t s = Except.error requireDsetMsg))
    ∧ (alistFind loc.children name = none →
      Loc.require_dataset loc name t s
        = Except.ok (⟨t, s.ext⟩, ⟨loc.lid, loc.children ++ [(name, Entry.dsetE t s.ext)]⟩)
      ∧ (∀ t2 s2,
          Loc.require_dataset ⟨loc.lid, loc.children ++ [(name, Entry.dsetE t s.ext)]⟩ name t2 s2
            = if t2 = t ∧ s2.ext = s.ext
              then Except.ok (⟨t, s.ext⟩, ⟨loc.lid, loc.children ++ [(name, Entry.dsetE t s.ext)]⟩)
              else Except.error requireDsetMsg)) := by
  constructor
  · intro t0 e0 hf
    have hcont : loc.containsObj name Object.dataset = true := by
      simp [Loc.containsObj, hopen, hf]
    have hod : loc.open_dataset name = Except.ok ⟨t0, e0⟩ := by
      simp [Loc.open_dataset, hopen, hf]
    constructor
    · rintro ⟨ht, he⟩
      subst ht
      subst he
      simp [Loc.require_dataset, hcont, hod, DsetObj.get_type, DsetObj.get_space, dataspace_eq]
    · intro hne
      have hcond : ((⟨t0, e0⟩ : DsetObj).get_type == t
          && dataspace_eq (DsetObj.get_space ⟨t0, e0⟩) s) = false := by
        apply Bool.eq_false_iff.mpr
        intro hcc
        rw [Bool.and_eq_true] at hcc
        simp only [DsetObj.get_type, DsetObj.get_space, dataspace_eq] at hcc
        exact hne ⟨eq_of_beq hcc.1, eq_of_beq hcc.2⟩
      simp [Loc.require_dataset, hcont, hod, hcond]
  · intro hf
    have hcont : loc.containsObj name Object.dataset = false := by
      simp [Loc.containsObj, hopen, hf]
    refine ⟨by simp [Loc.require_dataset, hcont, Loc.create_dataset, hopen, hf], ?_⟩
    intro t2 s2
    have hf2 : alistFind (loc.children ++ [(name, Entry.dsetE t s.ext)]) name
        = some (Entry.dsetE t s.ext) := by
      rw [alistFind_append_of_none _ _ _ hf]
      simp [alistFind]
    have hcont2 : (Loc.mk loc.lid (loc.children ++ [(name, Entry.dsetE t s.ext)])).containsObj
        name Object.dataset = true := by
      simp [Loc.containsObj, hopen, hf2]
    have hod2 : (Loc.mk loc.lid (loc.children ++ [(name, Entry.dsetE t s.ext)])).open_dataset
        name = Except.ok ⟨t, s.ext⟩ := by
      simp [Loc.open_dataset, hopen, hf2]
    by_cases hc : t2 = t ∧ s2.ext = s.ext
    · rw [if_pos hc]
      obtain ⟨ht2, hs2⟩ := hc
      subst ht2
      simp [Loc.require_dataset, hcont2, hod2, DsetObj.get_type, DsetObj.get_space,
        dataspace_eq, hs2]
    · rw [if_neg hc]
      have hcond : ((⟨t, s.ext⟩ : DsetObj).get_type == t2
          && dataspace_eq (DsetObj.get_space ⟨t, s.ext⟩) s2) = false := by
        apply Bool.eq_false_iff.mpr
        intro hcc
        rw [Bool.and_eq_true] at hcc
        simp only [DsetObj.get_type, DsetObj.get_space, dataspace_eq] at hcc
        exact hc ⟨(eq_of_beq hcc.1).symm, (eq_of_beq hcc.2).symm⟩
      simp [Loc.require_dataset, hcont2, hod2, hcond]

/-- Witness for c4_require_dataset: on an open location with no children,
requiring a double scalar dataset named data creates it; requiring it
again with identical type and space returns it; requiring it with int
instead fails with the compatibility message. -/
theorem c4_witness :
    Loc.require_dataset ⟨3, []⟩ "data" H5T.native_double Dataspace.scalar
      = Except.ok (⟨H5T.native_double, Extent.scalarE⟩,
          ⟨3, [("data", Entry.dsetE H5T.native_double Extent.scalarE)]⟩)
    ∧ Loc.require_dataset ⟨3, [("data", Entry.dsetE H5T.native_double Extent.scalarE)]⟩
        "data" H5T.native_double Dataspace.scalar
      = Except.ok (⟨H5T.native_double, Extent.scalarE⟩,
          ⟨3, [("data", Entry.dsetE H5T.native_double Extent.scalarE)]⟩)
    ∧ Loc.require_dataset ⟨3, [("data", Entry.dsetE H5T.native_double Extent.scalarE)]⟩
        "data" H5T.native_int Dataspace.scalar
      = Except.error requireDsetMsg := by
  have h := c4_require_dataset ⟨3, []⟩ "data" H5T.native_double Dataspace.scalar (by decide)
  have h2 := h.2 rfl
  refine ⟨h2.1, (h2.2 H5T.native_double Dataspace.scalar).trans (by decide),
    (h2.2 H5T.native_int Dataspace.scalar).trans (by decide)⟩

/-- C5: require_group is idempotent — on an open location whose name is
not already a dataset, the first call opens or creates the group, the
second call succeeds, returns a handle to the same underlying group, and
leaves the location's children unchanged. -/
theorem c5_require_group_idempotent (loc : Loc) (name : String)
    (hopen : loc.lid ≠ -1) (hnd : loc.containsObj name Object.dataset = false) :
    ∃ loc1 : Loc,
      Loc.require_group loc name = Except.ok (name, loc1)
      ∧ Loc.require_group loc1 name = Except.ok (name, loc1)
      ∧ alistFind loc1.children name = some Entry.groupE
      ∧ loc1.lid = loc.lid := by
  rcases hf : alistFind loc.children name with _ | e
  · refine ⟨⟨loc.lid, loc.children ++ [(name, Entry.groupE)]⟩, ?_, ?_, ?_, rfl⟩
    · have hcg : loc.containsObj name Object.group = false := by
        simp [Loc.containsObj, hopen, hf]
      simp [Loc.require_group, hcg, Loc.create_group, hopen, hf]
    · have hf2 : alistFind (loc.children ++ [(name, Entry.groupE)]) name
          = some Entry.groupE := by
        rw [alistFind_append_of_none _ _ _ hf]
        simp [alistFind]
      have hcg2 : (Loc.mk loc.lid (loc.children ++ [(name, Entry.groupE)])).containsObj
          name Object.group = true := by
        simp [Loc.containsObj, hopen, hf2]
      simp [Loc.require_group, hcg2, Loc.open_group, hopen, hf2, Except.map]
    · rw [alistFind_append_of_none _ _ _ hf]
      simp [alistFind]
  · cases e with
    | groupE =>
      have hcg : loc.containsObj name Object.group = true := by
        simp [Loc.containsObj, hopen, hf]
      refine ⟨loc, ?_, ?_, hf, rfl⟩
      · simp [Loc.require_group, hcg, Loc.open_group, hopen, hf, Except.map]
      · simp [Loc.require_group, hcg, Loc.open_group, hopen, hf, Except.map]
    | dsetE t0 e0 =>
      simp [Loc.containsObj, hopen, hf] at hnd

/-- Witness for c5_require_group_idempotent: on an open empty location,
requiring group1 twice succeeds both times with the same resulting
location. -/
theorem c5_witness :
    ∃ loc1 : Loc,
      Loc.require_group ⟨3, []⟩ "group1" = Except.ok ("group1", loc1)
      ∧ Loc.require_group loc1 "group1" = Except.ok ("group1", loc1)
      ∧ alistFind loc1.children "group1" = some Entry.groupE
      ∧ loc1.lid = 3 := by
  exact c5_require_group_idempotent ⟨3, []⟩ "group1" (by decide) (by decide)

/-- C6: closing a Link (and so a File, Group, or Dataset) a second time is
a no-op — no error and no second native release — closing an
already-invalid handle does nothing, and operating on a closed location
(opening a group through it) fails. -/
theorem c6_close_idempotent (l : Link) (obj : Object) (tr : List CloseEvent)
    (f : FileH) (c : Children) (name : String) :
    Link.close (Link.close l obj tr).1 obj (Link.close l obj tr).2 = Link.close l obj tr
    ∧ FileH.close (FileH.close f tr).1 (FileH.close f tr).2 = FileH.close f tr
    ∧ (f.link.id = -1 → FileH.close f tr = (f, tr))
    ∧ Loc.open_group ⟨-1, c⟩ name
        = Except.error "H5Gopen failed: invalid location identifier" := by
  have hlink : ∀ (o : Object) (l2 : Link) (t2 : List CloseEvent),
      Link.close (Link.close l2 o t2).1 o (Link.close l2 o t2).2 = Link.close l2 o t2 := by
    intro o l2 t2
    by_cases hid : l2.id = -1
    · simp [Link.close, hid]
    · simp [Link.close, hid]
  refine ⟨hlink obj l tr, ?_, ?_, by simp [Loc.open_group]⟩
  · cases f with
    | mk lk ni =>
      have h2 := hlink Object.file lk tr
      simp only [FileH.close]
      rw [h2]
  · intro hid
    cases f with
    | mk lk ni =>
      simp only [FileH.close, Link.close]
      simp only [FileH.link] at hid
      simp [hid]

/-- Witness for c6_close_idempotent: closing an already-invalid file
handle is a no-op. -/
theorem c6_witness :
    FileH.close ⟨⟨-1⟩, NativeIntent.acc_rdonly⟩ [] = (⟨⟨-1⟩, NativeIntent.acc_rdonly⟩, []) := by
  have h := c6_close_idempotent ⟨-1⟩ Object.file [] ⟨⟨-1⟩, NativeIntent.acc_rdonly⟩ [] "group1"
  exact h.2.2.1 rfl

/-- C7: constructing a File with mode "r" or "r+" fails when the file is
absent; mode "w" always succeeds and produces a fresh empty file,
destroying any prior contents; any other mode string throws "File mode
must be r, r+, or w"; and File::exists before opening matches whether
open-for-read would succeed. -/
theorem c7_file_modes (fs : FS) (filename mode : String) (fresh : Int) :
    (alistFind fs filename = none →
        mkFile fs filename "r" fresh = Except.error "H5Fopen failed: unable to open file"
        ∧ mkFile fs filename "r+" fresh = Except.error "H5Fopen failed: unable to open file")
    ∧ mkFile fs filename "w" fresh
        = Except.ok (⟨⟨fresh⟩, NativeIntent.acc_rdwr⟩, alistSet fs filename [])
    ∧ alistFind (alistSet fs filename []) filename = some []
    ∧ (mode ≠ "r" → mode ≠ "r+" → mode ≠ "w" →
        mkFile fs filename mode fresh = Except.error "File mode must be r, r+, or w")
    ∧ (fileExistsQ fs filename = true ↔ exceptIsOk (mkFile fs filename "r" fresh) = true) := by
  refine ⟨?_, ?_, alistFind_alistSet fs filename [], ?_, ?_⟩
  · intro hf
    constructor
    · simp [mkFile, h5f_open, hf, Except.map]
    · simp [mkFile, h5f_open, hf, Except.map]
  · simp [mkFile]
  · intro hr hrp hw
    simp [mkFile, hr, hrp, hw]
  · rcases hf : alistFind fs filename with _ | c
    · simp [fileExistsQ, h5f_is_hdf5, hf, mkFile, h5f_open, exceptIsOk, Except.map]
    · simp [fileExistsQ, h5f_is_hdf5, hf, mkFile, h5f_open, exceptIsOk, Except.map]

/-- Witness for c7_file_modes: on an empty filesystem, open of a.h5 for
read fails, create-truncate succeeds with an empty file, mode "x" throws
the mode message, and the existence probe agrees with open-for-read. -/
theorem c7_witness :
    mkFile [] "a.h5" "r" 3 = Except.error "H5Fopen failed: unable to open file"
    ∧ mkFile [] "a.h5" "w" 3 = Except.ok (⟨⟨3⟩, NativeIntent.acc_rdwr⟩, [("a.h5", [])])
    ∧ mkFile [] "a.h5" "x" 3 = Except.error "File mode must be r, r+, or w"
    ∧ (fileExistsQ [] "a.h5" = true ↔ exceptIsOk (mkFile [] "a.h5" "r" 3) = true) := by
  have h := c7_file_modes [] "a.h5" "x" 3
  exact ⟨(h.1 rfl).1, h.2.1, h.2.2.2.1 (by decide) (by decide) (by decide), h.2.2.2.2⟩

/-- Counterexample to C8 as stated: Link::close issues its native close
call and Link::size issues H5Literate without routing them through the
detail::check adapter, so not every native library call made by every
component goes through the error-check adapter. -/
theorem c8_counterexample :
    allRouted (closeCalls ⟨5⟩ Object.file) = false
    ∧ allRouted sizeCalls = false := by decide

/-- C8 amended: a failing (negative) native return value routed through
detail::check raises a failure carrying the native diagnostic message and
a non-negative value passes through, and calls such as H5Gopen in
Link::open_group are routed — but not every native call is: Link::close's
H5Fclose / H5Gclose / H5Dclose and Link::size's H5Literate are issued
without the adapter, so their native failures go unchecked. -/
theorem c8_check_adapter (r : Int) (msg : String) (l : Link) :
    (r < 0 → check r msg = Except.error msg)
    ∧ (0 ≤ r → check r msg = Except.ok r)
    ∧ allRouted openGroupCalls = true
    ∧ (l.id ≠ -1 →
        allRouted (closeCalls l Object.file) = false
        ∧ allRouted (closeCalls l Object.group) = false
        ∧ allRouted (closeCalls l Object.dataset) = false)
    ∧ allRouted sizeCalls = false := by
  refine ⟨fun hneg => by simp [check, hneg], fun hpos => ?_, by decide, fun hid => ?_, by decide⟩
  · unfold check
    rw [if_neg (by omega)]
  · refine ⟨?_, ?_, ?_⟩ <;> simp [closeCalls, hid, allRouted, closeFnName]

/-- Witness for c8_check_adapter: check on a failing return raises the
diagnostic, check on a succeeding return passes it through, and a valid
link's close trace contains an unrouted native call. -/
theorem c8_witness :
    check (-1) "native diagnostic" = Except.error "native diagnostic"
    ∧ check 0 "native diagnostic" = Except.ok 0
    ∧ allRouted (closeCalls ⟨5⟩ Object.group) = false := by
  have h1 := c8_check_adapter (-1) "native diagnostic" ⟨5⟩
  have h2 := c8_check_adapter 0 "native diagnostic" ⟨5⟩
  exact ⟨h1.1 (by decide), h2.2.1 (by decide), (h1.2.2.2.1 (by decide)).2.1⟩

/-- Counterexample to C9 as stated: a file handle whose native access
intent is concurrent-write (or concurrent-read) is not reported by
intent() — those branches are commented out in the source and the
function falls through to a bare throw. -/
theorem c9_counterexample :
    FileH.intent ⟨⟨3⟩, NativeIntent.acc_swmr_write⟩ ≠ Except.ok Intent.swmr_write
    ∧ FileH.intent ⟨⟨3⟩, NativeIntent.acc_swmr_write⟩
        = Except.error "terminate: bare throw with no active exception"
    ∧ FileH.intent ⟨⟨3⟩, NativeIntent.acc_swmr_read⟩ ≠ Except.ok Intent.swmr_read := by decide

/-- C9 amended: intent() reports read-write for a handle whose native
intent is read-write and read-only for read-only — which covers every
handle this wrapper's constructor produces, "r" being read-only and "r+"
and "w" read-write — while the concurrent-write / concurrent-read intents
are not reported: they reach a bare throw. -/
theorem c9_intent_reported (f : FileH) (fs : FS) (filename : String) (fresh : Int) :
    (f.link.id ≠ -1 →
      (f.nativeIntent = NativeIntent.acc_rdwr → FileH.intent f = Except.ok Intent.rdwr)
      ∧ (f.nativeIntent = NativeIntent.acc_rdonly → FileH.intent f = Except.ok Intent.rdonly)
      ∧ ((f.nativeIntent = NativeIntent.acc_swmr_write
          ∨ f.nativeIntent = NativeIntent.acc_swmr_read) →
          FileH.intent f = Except.error "terminate: bare throw with no active exception"))
    ∧ (∀ g fs2, mkFile fs filename "r" fresh = Except.ok (g, fs2) →
        g.nativeIntent = NativeIntent.acc_rdonly)
    ∧ (∀ g fs2, mkFile fs filename "r+" fresh = Except.ok (g, fs2) →
        g.nativeIntent = NativeIntent.acc_rdwr)
    ∧ (∀ g fs2, mkFile fs filename "w" fresh = Except.ok (g, fs2) →
        g.nativeIntent = NativeIntent.acc_rdwr) := by
  refine ⟨fun hid => ⟨?_, ?_, ?_⟩, ?_, ?_, ?_⟩
  · intro hni
    simp [FileH.intent, hid, hni]
  · intro hni
    simp [FileH.intent, hid, hni]
  · rintro (hni | hni) <;> simp [FileH.intent, hid, hni]
  · intro g fs2 hmk
    by_cases hf : (alistFind fs filename).isSome <;>
      simp [mkFile, h5f_open, hf, Except.map] at hmk
    rw [← hmk.1]
  · intro g fs2 hmk
    by_cases hf : (alistFind fs filename).isSome <;>
      simp [mkFile, h5f_open, hf, Except.map] at hmk
    rw [← hmk.1]
  · intro g fs2 hmk
    simp [mkFile] at hmk
    rw [← hmk.1]

/-- Witness for c9_intent_reported: the two reported intents, the bare
throw on a concurrent intent, and the intent recorded by an open for
read. -/
theorem c9_witness :
    FileH.intent ⟨⟨3⟩, NativeIntent.acc_rdwr⟩ = Except.ok Intent.rdwr
    ∧ FileH.intent ⟨⟨3⟩, NativeIntent.acc_rdonly⟩ = Except.ok Intent.rdonly
    ∧ FileH.intent ⟨⟨3⟩, NativeIntent.acc_swmr_read⟩
        = Except.error "terminate: bare throw with no active exception"
    ∧ (⟨⟨7⟩, NativeIntent.acc_rdonly⟩ : FileH).nativeIntent = NativeIntent.acc_rdonly := by
  have h1 := c9_intent_reported ⟨⟨3⟩, NativeIntent.acc_rdwr⟩ [("a.h5", [])] "a.h5" 7
  have h2 := c9_intent_reported ⟨⟨3⟩, NativeIntent.acc_rdonly⟩ [("a.h5", [])] "a.h5" 7
  have h3 := c9_intent_reported ⟨⟨3⟩, NativeIntent.acc_swmr_read⟩ [("a.h5", [])] "a.h5" 7
  refine ⟨(h1.1 (by decide)).1 rfl, (h2.1 (by decide)).2.1 rfl,
    (h3.1 (by decide)).2.2 (Or.inr rfl), ?_⟩
  exact h1.2.1 ⟨⟨7⟩, NativeIntent.acc_rdonly⟩ [("a.h5", [])] (by decide)

/-- C10: two Dataspaces compare equal exactly when their extents are
equal, the active selections being ignored; consequently require_dataset
accepts an existing dataset whenever the requested space's extent matches
the on-disk extent, whatever selection — in particular a narrower
hyperslab — the requested space carries. -/
theorem c10_extent_equality (a b : Dataspace) (loc : Loc) (name : String)
    (t : H5T) (ext : Extent) (sel : Selection)
    (hopen : loc.lid ≠ -1)
    (hfound : alistFind loc.children name = some (Entry.dsetE t ext)) :
    (dataspace_eq a b = true ↔ a.ext = b.ext)
    ∧ Loc.require_dataset loc name t ⟨ext, sel⟩ = Except.ok (⟨t, ext⟩, loc) := by
  constructor
  · simp [dataspace_eq]
  · have hcont : loc.containsObj name Object.dataset = true := by
      simp [Loc.containsObj, hopen, hfound]
    have hod : loc.open_dataset name = Except.ok ⟨t, ext⟩ := by
      simp [Loc.open_dataset, hopen, hfound]
    simp [Loc.require_dataset, hcont, hod, DsetObj.get_type, DsetObj.get_space, dataspace_eq]

/-- Witness for c10_extent_equality: a space over extent [4] carrying a
narrower 2-element hyperslab selection compares equal to the full simple
space over [4], and require_dataset with it accepts the existing int
dataset of extent [4]. -/
theorem c10_witness :
    dataspace_eq ⟨Extent.simpleE [4], Selection.slabS [0] [1] [2] [1]⟩ (Dataspace.simple [4])
      = true
    ∧ Loc.require_dataset ⟨3, [("data", Entry.dsetE H5T.native_int (Extent.simpleE [4]))]⟩
        "data" H5T.native_int ⟨Extent.simpleE [4], Selection.slabS [0] [1] [2] [1]⟩
      = Except.ok (⟨H5T.native_int, Extent.simpleE [4]⟩,
          ⟨3, [("data", Entry.dsetE H5T.native_int (Extent.simpleE [4]))]⟩) := by
  have h := c10_extent_equality
      ⟨Extent.simpleE [4], Selection.slabS [0] [1] [2] [1]⟩ (Dataspace.simple [4])
      ⟨3, [("data", Entry.dsetE H5T.native_int (Extent.simpleE [4]))]⟩ "data"
      H5T.native_int (Extent.simpleE [4]) (Selection.slabS [0] [1] [2] [1])
      (by decide) (by decide)
  exact ⟨h.1.mpr rfl, h.2⟩

end NDH5
